import Mathlib

/-!
Verification development for the Markdown-to-PDF conversion pipeline of
`streamlit_app.py`.

The program's core is the function `markdown_to_pdf_bytes`, which

1. parses a Markdown string to HTML via `markdown.markdown(s, extensions=['extra', 'smarty', 'fenced_code'])`,
2. embeds the HTML into a fixed f-string template carrying a compact CSS stylesheet,
3. renders the UTF-8 encoded template to PDF bytes via `pisa.CreatePDF`,
4. returns `None` when the renderer reports an error or any stage raises, and
   the buffer's bytes otherwise,

and the surrounding Streamlit glue, whose conversion branch refuses
empty/whitespace-only input before calling `markdown_to_pdf_bytes`.

The two external library calls (`markdown.markdown`, `pisa.CreatePDF`) are not
part of this repository; they are modelled as abstract function parameters
(`ExternalLibs`).  Everything the repository itself does — the extension list,
the template text, the error handling, the UI short-circuit — is embedded
concretely below.
-/

/-- A byte buffer is modelled as a list of byte values (each `< 256`). -/
abbrev Bytes := List Nat

/-- UTF-8 encoding of a single character, as performed by Python's
`str.encode('utf-8')`. -/
def utf8EncodeChar (c : Char) : List Nat :=
  let n := c.toNat
  if n < 0x80 then [n]
  else if n < 0x800 then
    [0xC0 ||| (n >>> 6), 0x80 ||| (n &&& 0x3F)]
  else if n < 0x10000 then
    [0xE0 ||| (n >>> 12), 0x80 ||| ((n >>> 6) &&& 0x3F), 0x80 ||| (n &&& 0x3F)]
  else
    [0xF0 ||| (n >>> 18), 0x80 ||| ((n >>> 12) &&& 0x3F),
     0x80 ||| ((n >>> 6) &&& 0x3F), 0x80 ||| (n &&& 0x3F)]

/-- Model of `html_template.encode('utf-8')` (streamlit_app.py line 138). -/
def utf8Bytes (s : String) : Bytes :=
  s.data.flatMap utf8EncodeChar

/-- Severity of a `logging` call. -/
inductive LogLevel where
  | info
  | error
deriving DecidableEq, Repr

/-- One emitted log line (level and message). -/
structure LogLine where
  level : LogLevel
  msg : String
deriving DecidableEq, Repr

/-- The extension list passed to `markdown.markdown` in `markdown_to_pdf_bytes`
(streamlit_app.py lines 26-28). -/
def markdownExtensions : List String :=
  ["extra", "smarty", "fenced_code"]

/-- Abstract model of the two third-party calls the pipeline makes.

`parse` models `markdown.markdown(markdown_string, extensions=...)`: given the
extension list and the input it returns the serialized HTML of the structural
tree, or raises (`Except.error`).

`render` models `pisa.CreatePDF(src, dest=pdf_buffer, encoding='utf-8')` on a
freshly allocated empty buffer: given the UTF-8 source bytes it either raises,
or returns the error count `pisa_status.err` together with the bytes it wrote
into the buffer.  Timestamp/metadata fields of the PDF are fixed, which is what
makes `render` a function of its input alone. -/
structure ExternalLibs where
  parse : List String → String → Except String String
  render : Bytes → Except String (Nat × Bytes)

/-! The fixed HTML/CSS template (streamlit_app.py lines 31-134).  The f-string
is a constant text with a single interpolation hole `{html_content}`; it is
transcribed below rule by rule.  Literal braces are written `\x7b`/`\x7d`. -/

/-- CSS rule for `body` (lines 38-43). -/
def cssBody : String :=
  "body \x7b\n" ++
  "                    font-family: Arial, Helvetica, sans-serif;\n" ++
  "                    line-height: 1.2; /* Reduced line height */\n" ++
  "                    font-size: 9pt;   /* Reduced base font size */\n" ++
  "                    margin: 0.2in;    /* Explicit page margins (adjust if needed) */\n" ++
  "                \x7d"

/-- CSS rule for `p` (lines 44-48). -/
def cssP : String :=
  "p \x7b\n" ++
  "                    margin-top: 0;      /* Remove top margin */\n" ++
  "                    margin-bottom: 0.08em; /* Very small bottom margin */\n" ++
  "                    padding: 0;\n" ++
  "                \x7d"

/-- CSS rule for `ul, ol` (lines 49-55). -/
def cssUlOl : String :=
  "ul, ol \x7b\n" ++
  "                    padding-left: 18px; /* Slightly reduce indent */\n" ++
  "                    margin-top: 0.05em; /* Very small top margin */\n" ++
  "                    margin-bottom: 0.1em; /* Reduced bottom margin */\n" ++
  "                    padding-top: 0;\n" ++
  "                    padding-bottom: 0;\n" ++
  "                \x7d"

/-- CSS rule for `li` (lines 56-61). -/
def cssLi : String :=
  "li \x7b\n" ++
  "                    margin-top: 0;\n" ++
  "                    margin-bottom: 0; /* No space between list items */\n" ++
  "                    padding-top: 0;\n" ++
  "                    padding-bottom: 0;\n" ++
  "                \x7d"

/-- CSS rule for `h1` (lines 64-71). -/
def cssH1 : String :=
  "h1 \x7b\n" ++
  "                    margin-top: 0;\n" ++
  "                    margin-bottom: 0.1em; /* Minimal space after H1 */\n" ++
  "                    padding-bottom: 0;\n" ++
  "                    text-align: center;\n" ++
  "                    font-size: 1.6em; /* Slightly Reduced */\n" ++
  "                    line-height: 1.2;\n" ++
  "                \x7d"

/-- CSS rule for `h2` (lines 73-80). -/
def cssH2 : String :=
  "h2 \x7b\n" ++
  "                    font-size: 1.15em; /* Reduced */\n" ++
  "                    margin-top: 0.6em;  /* Significantly Reduced space above section */\n" ++
  "                    margin-bottom: 0.1em;/* Reduced space below heading text */\n" ++
  "                    padding-bottom: 0.05em;/* Reduced space between text and line */\n" ++
  "                    border-bottom: 0.5px solid #ccc; /* Thinner border */\n" ++
  "                    line-height: 1.2;\n" ++
  "                \x7d"

/-- CSS rule for `h3, h4, h5, h6` (lines 82-89). -/
def cssH36 : String :=
  "h3, h4, h5, h6 \x7b\n" ++
  "                    font-size: 1.0em; /* Reduced */\n" ++
  "                    margin-top: 0.4em; /* Reduced */\n" ++
  "                    margin-bottom: 0.05em; /* Very small */\n" ++
  "                    line-height: 1.2;\n" ++
  "                    padding: 0;\n" ++
  "                    font-weight: bold;\n" ++
  "                \x7d"

/-- CSS rule for inline `code` (lines 93-96). -/
def cssCode : String :=
  "code \x7b\n" ++
  "                    background-color: #f0f0f0; padding: 1px 3px; /* Slightly smaller padding */\n" ++
  "                    border-radius: 3px; font-family: monospace; font-size: 0.9em;\n" ++
  "                \x7d"

/-- CSS rule for `pre` blocks (lines 97-103). -/
def cssPre : String :=
  "pre \x7b\n" ++
  "                    background-color: #f0f0f0; padding: 5px; /* Reduced padding */\n" ++
  "                    border-radius: 4px; overflow-x: auto; font-family: monospace;\n" ++
  "                    font-size: 0.85em; /* Slightly smaller code block font */\n" ++
  "                    white-space: pre-wrap; word-wrap: break-word;\n" ++
  "                    margin-top: 0.3em; margin-bottom: 0.3em; /* Reduced margins */\n" ++
  "                \x7d"

/-- CSS rule for `blockquote` (lines 104-109). -/
def cssBlockquote : String :=
  "blockquote \x7b\n" ++
  "                    border-left: 2px solid #ccc; /* Thinner border */\n" ++
  "                    padding-left: 10px; /* Reduced padding */\n" ++
  "                    margin-left: 0; margin-top: 0.3em; margin-bottom: 0.3em; /* Reduced margins */\n" ++
  "                    color: #555; font-size: 0.95em;\n" ++
  "                \x7d"

/-- CSS rule for `table` (lines 110-113). -/
def cssTable : String :=
  "table \x7b\n" ++
  "                    border-collapse: collapse; width: 100%; margin-bottom: 0.5em; /* Reduced margin */\n" ++
  "                    border: 1px solid #ddd;\n" ++
  "                \x7d"

/-- CSS rule for `th, td` (lines 114-117). -/
def cssThTd : String :=
  "th, td \x7b\n" ++
  "                    border: 1px solid #ddd; padding: 4px; /* Reduced padding */\n" ++
  "                    text-align: left; font-size: 0.9em; /* Slightly smaller table text */\n" ++
  "                \x7d"

/-- CSS rule for `th` (line 118). -/
def cssTh : String :=
  "th \x7b background-color: #f2f2f2; font-weight: bold; \x7d"

/-- CSS rule for `img` (line 119). -/
def cssImg : String :=
  "img \x7b max-width: 100%; height: auto; display: block; margin-top: 0.5em; margin-bottom: 0.5em; \x7d"

/-- CSS rule for `a` (line 120). -/
def cssA : String :=
  "a \x7b color: #0066cc; text-decoration: none; \x7d"

/-- CSS rule for `a:hover` (line 121). -/
def cssAHover : String :=
  "a:hover \x7b text-decoration: underline; \x7d"

/-- CSS rule for `@page` (lines 124-126). -/
def cssPage : String :=
  "@page \x7b\n" ++
  "                    margin: 0.2in; /* Adjust overall page margins */\n" ++
  "                \x7d"

/-- The `<style>` element of the template (streamlit_app.py lines 36-128): the
full embedded stylesheet, with the CSS rules spliced in at their source
positions. -/
def styleSheet : String :=
  "<style>\n" ++
  "                /* --- Global Compact Settings --- */\n" ++
  "                " ++ cssBody ++ "\n" ++
  "                " ++ cssP ++ "\n" ++
  "                " ++ cssUlOl ++ "\n" ++
  "                " ++ cssLi ++ "\n\n" ++
  "                /* --- Compact Heading Styles --- */\n" ++
  "                " ++ cssH1 ++ "\n\n" ++
  "                " ++ cssH2 ++ "\n\n" ++
  "                " ++ cssH36 ++ "\n" ++
  "                /* --- END Compact Heading Styles --- */\n\n" ++
  "                /* --- Other Element Styles (mostly unchanged unless vertical space is affected) --- */\n" ++
  "                " ++ cssCode ++ "\n" ++
  "                " ++ cssPre ++ "\n" ++
  "                " ++ cssBlockquote ++ "\n" ++
  "                " ++ cssTable ++ "\n" ++
  "                " ++ cssThTd ++ "\n" ++
  "                " ++ cssTh ++ "\n" ++
  "                " ++ cssImg ++ " /* Reduced margins */\n" ++
  "                " ++ cssA ++ "\n" ++
  "                " ++ cssAHover ++ "\n\n" ++
  "                /* Explicit Page Margins (Optional but can help) */\n" ++
  "                " ++ cssPage ++ "\n\n" ++
  "            </style>"

/-- The constant text of the f-string template before the `{html_content}`
hole (streamlit_app.py lines 31-131). -/
def tplHead : String :=
  "\n        <!DOCTYPE html>\n        <html>\n        <head>\n" ++
  "            <meta charset=\"UTF-8\">\n            " ++ styleSheet ++
  "\n        </head>\n        <body>\n            "

/-- The constant text of the f-string template after the `{html_content}`
hole (streamlit_app.py lines 131-134). -/
def tplTail : String :=
  "\n        </body>\n        </html>\n        "

/-- The `html_template` f-string of `markdown_to_pdf_bytes`: a fixed head, the
parser's HTML output verbatim, and a fixed tail. -/
def htmlTemplate (html_content : String) : String :=
  tplHead ++ html_content ++ tplTail

/-- The body of the `try:` block of `markdown_to_pdf_bytes` up to the
`pisa.CreatePDF` call: parse with the fixed extension list, build the template,
encode it as UTF-8 and render.  An `Except.error` is an exception in flight. -/
def pipelineInner (libs : ExternalLibs) (markdown_string : String) :
    Except String (Nat × Bytes) :=
  match libs.parse markdownExtensions markdown_string with
  | .error e => .error e
  | .ok html_content => libs.render (utf8Bytes (htmlTemplate html_content))

/-- `markdown_to_pdf_bytes` together with the log lines it emits: the
`except Exception` handler turns any in-flight exception into a logged error
and `None`; a nonzero `pisa_status.err` is logged and collapsed to `None`;
otherwise the buffer's bytes are returned (streamlit_app.py lines 144-154). -/
def markdown_to_pdf_bytes_run (libs : ExternalLibs) (markdown_string : String) :
    Option Bytes × List LogLine :=
  match pipelineInner libs markdown_string with
  | .error e =>
      (none, [⟨.error, "An unexpected error occurred during PDF conversion: " ++ e⟩])
  | .ok (err, buf) =>
      if err ≠ 0 then
        (none, [⟨.error, "xhtml2pdf Error converting to PDF: " ++ toString err⟩])
      else
        (some buf, [⟨.info, "PDF conversion successful (compact styling)."⟩])

/-- The return value of `markdown_to_pdf_bytes`. -/
def markdown_to_pdf_bytes (libs : ExternalLibs) (markdown_string : String) :
    Option Bytes :=
  (markdown_to_pdf_bytes_run libs markdown_string).1

/-- Characters Python's `str.strip()` removes (the ASCII whitespace class). -/
def isPySpace (c : Char) : Bool :=
  c = ' ' || c = '\t' || c = '\n' || c = '\r' || c = '\x0b' || c = '\x0c'

/-- Model of Python's `str.strip()`: drop whitespace from both ends. -/
def pyStrip (s : String) : String :=
  String.mk (((s.data.dropWhile isPySpace).reverse.dropWhile isPySpace).reverse)

/-- The caller-visible outcome of pressing the Convert button. -/
inductive AppOutcome where
  | noInput
  | success (pdf : Bytes)
  | failed
deriving DecidableEq, Repr

/-- The conversion branch of the Streamlit UI (streamlit_app.py lines 176-194):
whitespace-only input short-circuits with a warning before the pipeline is
entered; otherwise `markdown_to_pdf_bytes` runs and Python truthiness of the
result (`if pdf_bytes:`) picks success or failure. -/
def convert_button_flow (libs : ExternalLibs) (markdown_input : String) :
    AppOutcome :=
  if pyStrip markdown_input = "" then
    .noInput
  else
    match markdown_to_pdf_bytes libs markdown_input with
    | some pdf => if pdf = [] then .failed else .success pdf
    | none => .failed

/-- Opening-quote context for the smarty substitution: a straight quote opens
when it stands at the start of the text or after whitespace. -/
def quoteOpens (prev : Option Char) : Bool :=
  match prev with
  | none => true
  | some c => isPySpace c

/-- Modelled from the spec: the `smarty` typographic substitution performed by
the Markdown parsing stage (the third-party `markdown` package that implements
it is not part of this repository).  Per the spec it performs straight quotes
→ curly quotes, `--` → en dash, `---` → em dash, `...` → ellipsis. -/
def smartyChars (prev : Option Char) : List Char → List Char
  | [] => []
  | '-' :: '-' :: '-' :: rest => '—' :: smartyChars (some '—') rest
  | '-' :: '-' :: rest => '–' :: smartyChars (some '–') rest
  | '.' :: '.' :: '.' :: rest => '…' :: smartyChars (some '…') rest
  | c :: rest =>
      if c = '"' then
        let q := if quoteOpens prev then '“' else '”'
        q :: smartyChars (some q) rest
      else if c = Char.ofNat 39 then
        let q := if quoteOpens prev then '‘' else '’'
        q :: smartyChars (some q) rest
      else
        c :: smartyChars (some c) rest

/-- The smarty substitution on a string. -/
def smarty (s : String) : String :=
  String.mk (smartyChars none s.data)

/-- Modelled from the spec: the parsing stage turns a single plain text line
into a paragraph element of the structural tree, with the smarty substitution
applied to its text. -/
def parseParagraphSmarty (s : String) : String :=
  "<p>" ++ smarty s ++ "</p>"

/-- HTML escaping of one character inside a code block (the special characters
`&`, `<`, `>` become entities; everything else is untouched). -/
def escapeCodeChar (c : Char) : List Char :=
  if c = '&' then "&amp;".data
  else if c = '<' then "&lt;".data
  else if c = '>' then "&gt;".data
  else [c]

/-- Split a character list into lines at newline characters. -/
def splitLinesAux (cur : List Char) : List Char → List (List Char)
  | [] => [cur.reverse]
  | c :: rest =>
      if c = '\n' then cur.reverse :: splitLinesAux [] rest
      else splitLinesAux (c :: cur) rest

/-- Join lines with newline characters. -/
def joinLines : List (List Char) → List Char
  | [] => []
  | [l] => l
  | l :: ls => l ++ '\n' :: joinLines ls

/-- Modelled from the spec: the fenced-code extension of the Markdown parsing
stage (the third-party `markdown` package that implements it is not part of
this repository).  A triple-backtick delimited, language-tagged fence is
rendered as a preformatted block; the fence body receives no Markdown inline
processing, only HTML entity escaping of `&`, `<`, `>`. -/
def fencedToHtml (input : String) : Option String :=
  match splitLinesAux [] input.data with
  | [] => none
  | fence :: rest =>
      if fence.take 3 = "```".data then
        let lang := fence.drop 3
        let body := rest.takeWhile (fun l => l ≠ "```".data)
        if body.length < rest.length then
          some (String.mk ("<pre><code class=\"language-".data ++ lang ++
            "\">".data ++ joinLines (body.map (fun l => l.flatMap escapeCodeChar)) ++
            "\n</code></pre>".data))
        else none
      else none

/-- Running one conversion in a process whose accumulated log is `log`: the
result is returned and the new log lines are appended to the process log. -/
def runConversion (libs : ExternalLibs) (s : String) (log : List LogLine) :
    Option Bytes × List LogLine :=
  let r := markdown_to_pdf_bytes_run libs s
  (r.1, log ++ r.2)

/-- Two sequential conversions of the same process: the two results and the
final process log. -/
def runTwice (libs : ExternalLibs) (s : String) :
    Option Bytes × Option Bytes × List LogLine :=
  let r₁ := runConversion libs s []
  let r₂ := runConversion libs s r₁.2
  (r₁.1, r₂.1, r₂.2)

/-- A concrete instantiation of the external libraries, used to witness
theorems with hypotheses: the parser returns its input and the renderer
reports zero errors and writes the bytes `%PDF`. -/
def demoLibs : ExternalLibs :=
  ⟨fun _ s => .ok s, fun _ => .ok (0, [37, 80, 68, 70])⟩

set_option maxRecDepth 8000

theorem data_append (a b : String) : (a ++ b).data = a.data ++ b.data := by
  cases a; cases b; rfl

theorem sub_refl_append {α : Type} (x t : List α) : x <:+: x ++ t :=
  ⟨[], t, by simp⟩

theorem sub_cons_append {α : Type} (x a t : List α) (h : x <:+: t) :
    x <:+: a ++ t := by
  obtain ⟨s, u, rfl⟩ := h
  exact ⟨a ++ s, u, by simp⟩

theorem sub_head_template (x : List Char) (c : String)
    (h : x <:+: tplHead.data) : x <:+: (htmlTemplate c).data := by
  obtain ⟨s, t, hst⟩ := h
  refine ⟨s, t ++ c.data ++ tplTail.data, ?_⟩
  simp only [htmlTemplate, data_append, ← List.append_assoc, hst]

theorem pyStrip_of_all_space (s : String)
    (h : ∀ c ∈ s.data, isPySpace c = true) : pyStrip s = "" := by
  have h1 : s.data.dropWhile isPySpace = [] :=
    List.dropWhile_eq_nil_iff.mpr h
  simp [pyStrip, h1]

/-- Claim C1: for every input Markdown string, `markdown_to_pdf_bytes` returns
either a PDF byte buffer or `none`, and never lets an exception raised by the
parsing, styling, or rendering stage propagate: every in-flight fault is
caught by the `except` handler, logged as an error, and collapsed into the
single no-output result `none`. -/
theorem markdown_to_pdf_bytes_catches_every_fault
    (libs : ExternalLibs) (s : String) :
    (∃ e, pipelineInner libs s = .error e ∧
      markdown_to_pdf_bytes_run libs s =
        (none, [⟨.error, "An unexpected error occurred during PDF conversion: " ++ e⟩])) ∨
    (∃ st buf, pipelineInner libs s = .ok (st, buf) ∧
      (markdown_to_pdf_bytes libs s = none ∨
       markdown_to_pdf_bytes libs s = some buf)) := by
  cases h : pipelineInner libs s with
  | error e =>
      exact Or.inl ⟨e, rfl, by simp [markdown_to_pdf_bytes_run, h]⟩
  | ok p =>
      obtain ⟨st, buf⟩ := p
      refine Or.inr ⟨st, buf, rfl, ?_⟩
      by_cases hst : st = 0
      · exact Or.inr (by simp [markdown_to_pdf_bytes, markdown_to_pdf_bytes_run, h, hst])
      · exact Or.inl (by simp [markdown_to_pdf_bytes, markdown_to_pdf_bytes_run, h, hst])

/-- Claim C2: if the layout engine reports an error or a stage raises, the
caller receives `none` and strictly no bytes; otherwise the caller receives
exactly the complete (non-empty, assuming the renderer meets its contract
that a zero error count comes with a non-empty buffer) byte buffer the
renderer produced — never a partially populated buffer. -/
theorem markdown_to_pdf_bytes_none_or_complete
    (libs : ExternalLibs) (s : String)
    (hrender : ∀ inp st buf, libs.render inp = .ok (st, buf) → st = 0 → buf ≠ []) :
    markdown_to_pdf_bytes libs s = none ∨
    ∃ html buf, libs.parse markdownExtensions s = .ok html ∧
      libs.render (utf8Bytes (htmlTemplate html)) = .ok (0, buf) ∧
      markdown_to_pdf_bytes libs s = some buf ∧ buf ≠ [] := by
  cases hp : libs.parse markdownExtensions s with
  | error e =>
      exact Or.inl (by
        simp [markdown_to_pdf_bytes, markdown_to_pdf_bytes_run, pipelineInner, hp])
  | ok html =>
      cases hr : libs.render (utf8Bytes (htmlTemplate html)) with
      | error e =>
          exact Or.inl (by
            simp [markdown_to_pdf_bytes, markdown_to_pdf_bytes_run, pipelineInner, hp, hr])
      | ok p =>
          obtain ⟨st, buf⟩ := p
          by_cases hst : st = 0
          · subst hst
            refine Or.inr ⟨html, buf, rfl, hr, ?_, hrender _ _ _ hr rfl⟩
            simp [markdown_to_pdf_bytes, markdown_to_pdf_bytes_run, pipelineInner, hp, hr]
          · exact Or.inl (by
              simp [markdown_to_pdf_bytes, markdown_to_pdf_bytes_run, pipelineInner, hp, hr, hst])

/-- Witness for claim C2, at the concrete input `"hello"` with concrete
well-behaved libraries. -/
theorem markdown_to_pdf_bytes_none_or_complete_witness :
    markdown_to_pdf_bytes demoLibs "hello" = none ∨
    ∃ html buf, demoLibs.parse markdownExtensions "hello" = .ok html ∧
      demoLibs.render (utf8Bytes (htmlTemplate html)) = .ok (0, buf) ∧
      markdown_to_pdf_bytes demoLibs "hello" = some buf ∧ buf ≠ [] :=
  markdown_to_pdf_bytes_none_or_complete demoLibs "hello"
    (by intro inp st buf h h0; cases h; decide)

/-- Claim C3: for every empty or whitespace-only input, the conversion branch
of the caller short-circuits with the no-input outcome, so neither the
pipeline nor the layout engine is ever invoked (the outcome is `noInput`
regardless of what the external libraries would do). -/
theorem whitespace_only_input_short_circuits
    (libs : ExternalLibs) (s : String)
    (h : ∀ c ∈ s.data, isPySpace c = true) :
    convert_button_flow libs s = .noInput := by
  simp [convert_button_flow, pyStrip_of_all_space s h]

/-- Witness for claim C3, at the concrete whitespace-only input. -/
theorem whitespace_only_input_short_circuits_witness :
    (∀ c ∈ ("  \n\t ").data, isPySpace c = true) ∧
    convert_button_flow demoLibs "  \n\t " = .noInput :=
  ⟨by decide, whitespace_only_input_short_circuits demoLibs "  \n\t " (by decide)⟩

/-- Claim C4: converting the same Markdown string twice in the same process
(the renderer being a fixed function of its input, i.e. timestamp/metadata
fields fixed) yields byte-for-byte identical results, independent of the
process log state accumulated by the first call. -/
theorem same_input_twice_identical_output (libs : ExternalLibs) (s : String) :
    (runTwice libs s).1 = (runTwice libs s).2.1 := rfl

/-- Claim C5: the Markdown parsing stage is invoked with exactly the three
non-optional extensions `extra`, `smarty`, `fenced_code`: the extension list
constant is exactly that list, and the pipeline's output depends on the
parser's behavior only at that extension list. -/
theorem parser_invoked_with_exact_three_extensions :
    markdownExtensions = ["extra", "smarty", "fenced_code"] ∧
    markdownExtensions.length = 3 ∧
    ∀ (p₁ p₂ : List String → String → Except String String)
      (r : Bytes → Except String (Nat × Bytes)) (s : String),
      p₁ ["extra", "smarty", "fenced_code"] s = p₂ ["extra", "smarty", "fenced_code"] s →
      markdown_to_pdf_bytes ⟨p₁, r⟩ s = markdown_to_pdf_bytes ⟨p₂, r⟩ s := by
  refine ⟨rfl, rfl, ?_⟩
  intro p₁ p₂ r s h
  have hp : (⟨p₁, r⟩ : ExternalLibs).parse = p₁ := rfl
  have hq : (⟨p₂, r⟩ : ExternalLibs).parse = p₂ := rfl
  simp only [markdown_to_pdf_bytes, markdown_to_pdf_bytes_run, pipelineInner,
    markdownExtensions, hp, hq, h]

/-- Witness for claim C5: two parsers that agree at the fixed extension list
(but not elsewhere) give identical pipeline output at a concrete input. -/
theorem parser_invoked_with_exact_three_extensions_witness :
    markdown_to_pdf_bytes ⟨fun _ s => .ok s, fun _ => .ok (0, [37])⟩ "x" =
    markdown_to_pdf_bytes
      ⟨fun exts s => if exts = ["extra", "smarty", "fenced_code"] then .ok s
                     else .error "other",
       fun _ => .ok (0, [37])⟩ "x" :=
  parser_invoked_with_exact_three_extensions.2.2 _ _ _ "x" (by simp)

theorem cssBody_in_head : cssBody.data <:+: tplHead.data := by
  simp only [tplHead, styleSheet, data_append, List.append_assoc]
  repeat first
    | exact sub_refl_append _ _
    | apply sub_cons_append

theorem cssP_in_head : cssP.data <:+: tplHead.data := by
  simp only [tplHead, styleSheet, data_append, List.append_assoc]
  repeat first
    | exact sub_refl_append _ _
    | apply sub_cons_append

theorem cssUlOl_in_head : cssUlOl.data <:+: tplHead.data := by
  simp only [tplHead, styleSheet, data_append, List.append_assoc]
  repeat first
    | exact sub_refl_append _ _
    | apply sub_cons_append

theorem cssLi_in_head : cssLi.data <:+: tplHead.data := by
  simp only [tplHead, styleSheet, data_append, List.append_assoc]
  repeat first
    | exact sub_refl_append _ _
    | apply sub_cons_append

theorem cssH1_in_head : cssH1.data <:+: tplHead.data := by
  simp only [tplHead, styleSheet, data_append, List.append_assoc]
  repeat first
    | exact sub_refl_append _ _
    | apply sub_cons_append

theorem cssH2_in_head : cssH2.data <:+: tplHead.data := by
  simp only [tplHead, styleSheet, data_append, List.append_assoc]
  repeat first
    | exact sub_refl_append _ _
    | apply sub_cons_append

theorem cssH36_in_head : cssH36.data <:+: tplHead.data := by
  simp only [tplHead, styleSheet, data_append, List.append_assoc]
  repeat first
    | exact sub_refl_append _ _
    | apply sub_cons_append

theorem cssCode_in_head : cssCode.data <:+: tplHead.data := by
  simp only [tplHead, styleSheet, data_append, List.append_assoc]
  repeat first
    | exact sub_refl_append _ _
    | apply sub_cons_append

theorem cssPre_in_head : cssPre.data <:+: tplHead.data := by
  simp only [tplHead, styleSheet, data_append, List.append_assoc]
  repeat first
    | exact sub_refl_append _ _
    | apply sub_cons_append

theorem cssTable_in_head : cssTable.data <:+: tplHead.data := by
  simp only [tplHead, styleSheet, data_append, List.append_assoc]
  repeat first
    | exact sub_refl_append _ _
    | apply sub_cons_append

theorem cssTh_in_head : cssTh.data <:+: tplHead.data := by
  simp only [tplHead, styleSheet, data_append, List.append_assoc]
  repeat first
    | exact sub_refl_append _ _
    | apply sub_cons_append

theorem cssImg_in_head : cssImg.data <:+: tplHead.data := by
  simp only [tplHead, styleSheet, data_append, List.append_assoc]
  repeat first
    | exact sub_refl_append _ _
    | apply sub_cons_append

theorem cssA_in_head : cssA.data <:+: tplHead.data := by
  simp only [tplHead, styleSheet, data_append, List.append_assoc]
  repeat first
    | exact sub_refl_append _ _
    | apply sub_cons_append

theorem cssAHover_in_head : cssAHover.data <:+: tplHead.data := by
  simp only [tplHead, styleSheet, data_append, List.append_assoc]
  repeat first
    | exact sub_refl_append _ _
    | apply sub_cons_append

theorem cssPage_in_head : cssPage.data <:+: tplHead.data := by
  simp only [tplHead, styleSheet, data_append, List.append_assoc]
  repeat first
    | exact sub_refl_append _ _
    | apply sub_cons_append

/-- Claim C6: every styled document produced by the Style Injector declares
the compact layout rules with the spec's exact values: page margin 0.2in on
all sides; sans-serif 9pt body with line-height 1.2; paragraph top margin 0
and bottom margin 0.08em; list left padding 18px with zero item spacing; h1
centered at 1.6em; h2 at 1.15em with a thin bottom border and 0.6em top
margin; h3-h6 at 1.0em bold with 0.4em top margin; shaded monospace inline
code and pre blocks; collapsed-border full-width tables with a shaded header
row; images at max-width 100%; and links colored with underline only on
hover. -/
theorem stylesheet_declares_compact_layout_rules (c : String) :
    -- page margin 0.2 inch on all sides (body margin and @page margin)
    (cssBody.data <:+: (htmlTemplate c).data ∧
     "margin: 0.2in".data <:+: cssBody.data ∧
     cssPage.data <:+: (htmlTemplate c).data ∧
     "margin: 0.2in".data <:+: cssPage.data) ∧
    -- body font: sans-serif, 9pt, line-height 1.2
    ("font-family: Arial, Helvetica, sans-serif".data <:+: cssBody.data ∧
     "font-size: 9pt".data <:+: cssBody.data ∧
     "line-height: 1.2".data <:+: cssBody.data) ∧
    -- paragraph: top margin 0, bottom margin 0.08em
    (cssP.data <:+: (htmlTemplate c).data ∧
     "margin-top: 0".data <:+: cssP.data ∧
     "margin-bottom: 0.08em".data <:+: cssP.data) ∧
    -- lists: left padding 18px, zero item spacing
    (cssUlOl.data <:+: (htmlTemplate c).data ∧
     "padding-left: 18px".data <:+: cssUlOl.data ∧
     cssLi.data <:+: (htmlTemplate c).data ∧
     "margin-top: 0;\n                    margin-bottom: 0".data <:+: cssLi.data) ∧
    -- h1: centered, 1.6em
    (cssH1.data <:+: (htmlTemplate c).data ∧
     "text-align: center".data <:+: cssH1.data ∧
     "font-size: 1.6em".data <:+: cssH1.data) ∧
    -- h2: 1.15em, thin bottom border, 0.6em top margin
    (cssH2.data <:+: (htmlTemplate c).data ∧
     "font-size: 1.15em".data <:+: cssH2.data ∧
     "border-bottom: 0.5px solid #ccc".data <:+: cssH2.data ∧
     "margin-top: 0.6em".data <:+: cssH2.data) ∧
    -- h3-h6: 1.0em, bold, 0.4em top margin
    (cssH36.data <:+: (htmlTemplate c).data ∧
     "font-size: 1.0em".data <:+: cssH36.data ∧
     "font-weight: bold".data <:+: cssH36.data ∧
     "margin-top: 0.4em".data <:+: cssH36.data) ∧
    -- shaded monospace inline code and pre blocks
    (cssCode.data <:+: (htmlTemplate c).data ∧
     "background-color: #f0f0f0".data <:+: cssCode.data ∧
     "font-family: monospace".data <:+: cssCode.data ∧
     cssPre.data <:+: (htmlTemplate c).data ∧
     "background-color: #f0f0f0".data <:+: cssPre.data ∧
     "font-family: monospace".data <:+: cssPre.data) ∧
    -- collapsed-border full-width tables with a shaded header row
    (cssTable.data <:+: (htmlTemplate c).data ∧
     "border-collapse: collapse".data <:+: cssTable.data ∧
     "width: 100%".data <:+: cssTable.data ∧
     cssTh.data <:+: (htmlTemplate c).data ∧
     "background-color: #f2f2f2".data <:+: cssTh.data) ∧
    -- images at max-width 100%
    (cssImg.data <:+: (htmlTemplate c).data ∧
     "max-width: 100%".data <:+: cssImg.data) ∧
    -- links colored, underline only on hover
    (cssA.data <:+: (htmlTemplate c).data ∧
     "color: #0066cc".data <:+: cssA.data ∧
     "text-decoration: none".data <:+: cssA.data ∧
     cssAHover.data <:+: (htmlTemplate c).data ∧
     cssAHover = "a:hover \x7b text-decoration: underline; \x7d") := by
  refine ⟨⟨sub_head_template _ c cssBody_in_head, by decide,
           sub_head_template _ c cssPage_in_head, by decide⟩,
    ⟨by decide, by decide, by decide⟩,
    ⟨sub_head_template _ c cssP_in_head, by decide, by decide⟩,
    ⟨sub_head_template _ c cssUlOl_in_head, by decide,
     sub_head_template _ c cssLi_in_head, by decide⟩,
    ⟨sub_head_template _ c cssH1_in_head, by decide, by decide⟩,
    ⟨sub_head_template _ c cssH2_in_head, by decide, by decide, by decide⟩,
    ⟨sub_head_template _ c cssH36_in_head, by decide, by decide, by decide⟩,
    ⟨sub_head_template _ c cssCode_in_head, by decide, by decide,
     sub_head_template _ c cssPre_in_head, by decide, by decide⟩,
    ⟨sub_head_template _ c cssTable_in_head, by decide, by decide,
     sub_head_template _ c cssTh_in_head, by decide⟩,
    ⟨sub_head_template _ c cssImg_in_head, by decide⟩,
    ⟨sub_head_template _ c cssA_in_head, by decide, by decide,
     sub_head_template _ c cssAHover_in_head, rfl⟩⟩

/-- Counterexample to claim C7: on the input `"hello" -- world` the parsing
stage (smarty substitution modelled from the spec) produces an en dash, so
the structural tree does not contain the claimed em-dash text
`“hello” — world`. -/
theorem smarty_double_dash_counterexample :
    parseParagraphSmarty "\"hello\" -- world" = "<p>“hello” – world</p>" ∧
    ¬ ("“hello” — world".data <:+:
        (parseParagraphSmarty "\"hello\" -- world").data) := by
  constructor
  · decide
  · decide

/-- Claim C7 (amended): for the input `"hello" -- world`, the structural tree
produced by the parsing stage contains the curly-quoted text `“hello” – world`
(straight double quotes replaced by curly quotes and `--` rendered as an en
dash). -/
theorem smarty_double_dash_en_dash :
    "“hello” – world".data <:+:
      (parseParagraphSmarty "\"hello\" -- world").data := by
  decide

/-- Claim C8: for the input consisting of a triple-backtick fenced block
tagged `python` containing the line `print(1)`, the structural tree contains
a preformatted block in which the literal text `print(1)` appears unescaped
and unmodified (the code escaping map is the identity on it), with no
Markdown inline processing applied inside the fence. -/
theorem fenced_code_block_preserved_literal :
    fencedToHtml "```python\nprint(1)\n```" =
      some "<pre><code class=\"language-python\">print(1)\n</code></pre>" ∧
    "print(1)".data <:+:
      "<pre><code class=\"language-python\">print(1)\n</code></pre>".data ∧
    String.mk ("print(1)".data.flatMap escapeCodeChar) = "print(1)" := by
  refine ⟨by decide, by decide, by decide⟩

/-- Claim C9: raw embedded HTML in the parser's output passes through the
styling stage unescaped and unsanitized into the styled document handed to
the layout engine: the template embeds the parser output verbatim between two
constants, any raw HTML fragment of the parser output is still present in the
styled document, and the layout engine receives exactly that styled document
with no sanitization step in between. -/
theorem raw_html_passes_through_unsanitized
    (libs : ExternalLibs) (s raw html : String)
    (hparse : libs.parse markdownExtensions s = .ok html)
    (hraw : raw.data <:+: html.data) :
    htmlTemplate html = tplHead ++ html ++ tplTail ∧
    raw.data <:+: (htmlTemplate html).data ∧
    pipelineInner libs s = libs.render (utf8Bytes (htmlTemplate html)) := by
  refine ⟨rfl, ?_, ?_⟩
  · have hdat : (htmlTemplate html).data =
        tplHead.data ++ (html.data ++ tplTail.data) := by
      simp [htmlTemplate, data_append, List.append_assoc]
    rw [hdat]
    apply sub_cons_append
    obtain ⟨a, b, hab⟩ := hraw
    refine ⟨a, b ++ tplTail.data, ?_⟩
    rw [← hab]
    simp [List.append_assoc]
  · simp [pipelineInner, hparse]

/-- Witness for claim C9, at the concrete raw-HTML input `<b>x</b>`. -/
theorem raw_html_passes_through_unsanitized_witness :
    htmlTemplate "<b>x</b>" = tplHead ++ "<b>x</b>" ++ tplTail ∧
    "<b>".data <:+: (htmlTemplate "<b>x</b>").data ∧
    pipelineInner demoLibs "<b>x</b>" =
      demoLibs.render (utf8Bytes (htmlTemplate "<b>x</b>")) :=
  raw_html_passes_through_unsanitized demoLibs "<b>x</b>" "<b>" "<b>x</b>"
    rfl (by decide)

/-- Claim C10: the styled document is exactly a fixed constant head
(containing the full `<style>` stylesheet block), followed by the parser's
HTML output verbatim, followed by a fixed constant tail, so the stylesheet
block embedded in any two generated styled documents is character-for-
character identical — a process-wide constant never parameterized by the
request. -/
theorem stylesheet_identical_across_conversions (c₁ c₂ : String) :
    ∃ pre suf : String,
      (∃ a b : String, pre = a ++ styleSheet ++ b) ∧
      htmlTemplate c₁ = pre ++ c₁ ++ suf ∧
      htmlTemplate c₂ = pre ++ c₂ ++ suf :=
  ⟨tplHead, tplTail,
    ⟨"\n        <!DOCTYPE html>\n        <html>\n        <head>\n" ++
       "            <meta charset=\"UTF-8\">\n            ",
     "\n        </head>\n        <body>\n            ", rfl⟩,
    rfl, rfl⟩
